import Mathlib

/-!
viewEdges (v185 and v240): edge extraction, geometry buffers, render loop, PPM writer.

A shallow embedding of `src/v185/viewEdges.cpp` and `src/v240/viewEdges.cpp`.

Modelling conventions
* `vec3f F` is `struct vec3f { float x, y, z; }`; the coordinate type `F` is kept
  abstract because the program only copies coordinates.
* The mesh source (VTK) is an external collaborator.  A cell is modelled by the
  part of the `vtkCell` interface the program can observe: `GetCellType()`,
  `GetPointId(k)` and (never called by the program) `GetNumberOfPoints()`.
* Undefined behaviour has no result.  `std::vector::operator[]` performs no
  bounds check, so a read outside the vector is undefined; signed `int`
  arithmetic that leaves the 32-bit range is undefined.  Every function that
  can meet one of them returns an `Option`, and `none` stands for "the program
  has no defined behaviour on this input".
* The rendering backend (OSPRay) is external; a run is modelled by its exit
  code and the ordered trace of backend calls, diagnostics and file writes.
-/

namespace ViewEdges

/-! ## Data model -/

/-- The `struct vec3f { float x, y, z; }` of the source, over an abstract
coordinate type. -/
structure vec3f (F : Type) where
  x : F
  y : F
  z : F
deriving DecidableEq

/-- The cell type tag `VTK_LINE` of `vtkCellType.h`. -/
def VTK_LINE : Int := 3

/-- The cell type tag `VTK_VERTEX` of `vtkCellType.h` (used in sample meshes). -/
def VTK_VERTEX : Int := 1

/-- The cell type tag `VTK_POLY_LINE` of `vtkCellType.h` (used in sample meshes). -/
def VTK_POLY_LINE : Int := 4

/-- The observable interface of a `vtkCell`: its type tag, the number of
point ids it holds (the program never asks for it) and the point id stored at
each position, as a `vtkIdType`. -/
structure vtkCell where
  GetCellType : Int
  GetNumberOfPoints : Nat
  GetPointId : Nat → Int

/-- What the program sees of the `vtkDataSet` after the point loop of `main`:
the `vertices` vector (one entry per point) and the cells `GetCell(0)` ..
`GetCell(numberOfCells-1)`. -/
structure vtkDataSet (F : Type) where
  vertices : List (vec3f F)
  cells : List vtkCell

/-- The conversion `static_cast<int>(v)` of a `vtkIdType` to a 32-bit `int`
(two's complement wrap-around). -/
def static_cast_int (v : Int) : Int :=
  (v + 2147483648) % 4294967296 - 2147483648

/-- A value of type `int`: `some v` when `v` lies in the 32-bit range, `none`
(signed overflow, undefined) otherwise. -/
def int32 (v : Int) : Option Int :=
  if -2147483648 ≤ v ∧ v ≤ 2147483647 then some v else none

/-- The unchecked read `vertices[p]` of a `std::vector` with an `int` index:
the element at position `p` when `p` is inside the vector; a read at any other
position (a negative `p` becomes a huge `size_t`) is undefined, `none`. -/
def vecAt {α : Type} (v : List α) (p : Int) : Option α :=
  if 0 ≤ p then v[p.toNat]? else none

/-- The results of a list of steps in order, `none` as soon as one step is
undefined. -/
def collect {α : Type} : List (Option α) → Option (List α)
  | [] => some []
  | none :: _ => none
  | some a :: rest => (collect rest).map fun l => a :: l

/-! ## Edge extraction and geometry buffers -/

/-- The variable `p0` of the cell loop: `static_cast<int>(cell->GetPointId(0))`. -/
def p0 (cell : vtkCell) : Int := static_cast_int (cell.GetPointId 0)

/-- The variable `p1` of the cell loop: `static_cast<int>(cell->GetPointId(1))`. -/
def p1 (cell : vtkCell) : Int := static_cast_int (cell.GetPointId 1)

/-- The cell loop of `main` in v240, from cell number `i` on, with the vectors
`overtices` and `indices` built so far: a cell whose type is `VTK_LINE` appends
`vertices[p0]`, `vertices[p1]` to `overtices` and `i * 2` (as `unsigned int`)
to `indices`; any other cell appends nothing.  The loop is undefined as soon
as one of the two reads is outside `vertices`. -/
def cellLoop240 {F : Type} (vertices : List (vec3f F)) :
    List vtkCell → Nat → List (vec3f F) × List Nat → Option (List (vec3f F) × List Nat)
  | [], _, acc => some acc
  | cell :: rest, i, (overtices, indices) =>
    if cell.GetCellType = VTK_LINE then
      match vecAt vertices (p0 cell), vecAt vertices (p1 cell) with
      | some v0, some v1 =>
        cellLoop240 vertices rest (i + 1)
          (overtices ++ [v0, v1], indices ++ [(i * 2) % 4294967296])
      | _, _ => none
    else
      cellLoop240 vertices rest (i + 1) (overtices, indices)

/-- The vectors `overtices` and `indices` of v240 after the cell loop. -/
def extract240 {F : Type} (d : vtkDataSet F) : Option (List (vec3f F) × List Nat) :=
  cellLoop240 d.vertices d.cells 0 ([], [])

/-- The cell loop of `main` in v185: a cell whose type is `VTK_LINE` appends
the six floats `p0.x p0.y p0.z p1.x p1.y p1.z` to `overtices`; the `indices`
vector is never filled (the `push_back` is commented out).  The loop is
undefined as soon as one of the reads is outside `vertices`. -/
def cellLoop185 {F : Type} (vertices : List (vec3f F)) :
    List vtkCell → Nat → List F → Option (List F)
  | [], _, overtices => some overtices
  | cell :: rest, i, overtices =>
    if cell.GetCellType = VTK_LINE then
      match vecAt vertices (p0 cell), vecAt vertices (p1 cell) with
      | some v0, some v1 =>
        cellLoop185 vertices rest (i + 1)
          (overtices ++ [v0.x, v0.y, v0.z, v1.x, v1.y, v1.z])
      | _, _ => none
    else
      cellLoop185 vertices rest (i + 1) overtices

/-- The vector `overtices` of v185 after the cell loop. -/
def extract185 {F : Type} (d : vtkDataSet F) : Option (List F) :=
  cellLoop185 d.vertices d.cells 0 []

/-- The edge segments read off a v240 vertex buffer: consecutive pairs
`(buffer[2k], buffer[2k+1])`. -/
def edgesOf {α : Type} : List α → List (α × α)
  | a :: b :: rest => (a, b) :: edgesOf rest
  | _ => []

/-- The six floats v185 stores for an edge. -/
def sixFloats {F : Type} (e : vec3f F × vec3f F) : List F :=
  [e.1.x, e.1.y, e.1.z, e.2.x, e.2.y, e.2.z]

/-- Decidable test `cell->GetCellType() == VTK_LINE`. -/
def isLine (cell : vtkCell) : Bool := decide (cell.GetCellType = VTK_LINE)

/-- Whether `p` is a position of the vector `v`. -/
def inVector {α : Type} (v : List α) (p : Int) : Bool :=
  decide (0 ≤ p) && decide (p < v.length)

/-- Whether every read of the cell loop is inside `vertices`: for every line
cell both `p0` and `p1` are positions of the vector. -/
def readsInside {F : Type} (d : vtkDataSet F) : Bool :=
  d.cells.all fun c => !isLine c || (inVector d.vertices (p0 c) && inVector d.vertices (p1 c))

/-- The edges of the line cells of a cell list, in order; `none` when a read
is outside `vertices`. -/
def lineEdges {F : Type} (vertices : List (vec3f F)) :
    List vtkCell → Option (List (vec3f F × vec3f F))
  | [] => some []
  | cell :: rest =>
    if cell.GetCellType = VTK_LINE then
      match vecAt vertices (p0 cell), vecAt vertices (p1 cell) with
      | some v0, some v1 => (lineEdges vertices rest).map fun es => (v0, v1) :: es
      | _, _ => none
    else lineEdges vertices rest

/-- The positions `i * 2` pushed for the line cells of a cell list whose first
cell has number `i`. -/
def lineIndices : List vtkCell → Nat → List Nat
  | [], _ => []
  | cell :: rest, i =>
    if cell.GetCellType = VTK_LINE then (i * 2) % 4294967296 :: lineIndices rest (i + 1)
    else lineIndices rest (i + 1)

/-! ## The image writer -/

/-- The bytes of the header `fprintf(file, "P6\n%i %i\n255\n", size_x, size_y)`. -/
def ppmHeader (size_x size_y : Int) : List Nat :=
  ("P6\n" ++ toString size_x ++ " " ++ toString size_y ++ "\n255\n").toList.map Char.toNat

/-- One assignment `out[3 * x + c] = in[4 * x + c]` of the inner loop of
`writePPM`, the four `int` operations checked: the byte copied.  `in` points
at `pixel[row]` (four bytes per pixel); `pixel` is the framebuffer seen as
bytes in address order. -/
def copyByte (pixel : Nat → Nat) (row x c : Int) : Option Nat :=
  (int32 (3 * x)).bind fun o =>
  (int32 (o + c)).bind fun _ =>
  (int32 (4 * x)).bind fun i =>
  (int32 (i + c)).bind fun j =>
  some (pixel (4 * row + j).toNat)

/-- The body of the inner loop of `writePPM` for column `x`: three bytes. -/
def ppmPixel (pixel : Nat → Nat) (row x : Int) : Option (List Nat) :=
  collect [copyByte pixel row x 0, copyByte pixel row x 1, copyByte pixel row x 2]

/-- The buffer `out` after the inner loop of `writePPM` for output row `y`:
`in` points at `pixel[(size_y - 1 - y) * size_x]`, computed in `int`, and the
loop runs for `x = 0 .. size_x - 1`. -/
def ppmRow (size_x size_y : Int) (pixel : Nat → Nat) (y : Int) : Option (List Nat) :=
  (int32 (size_y - 1)).bind fun a =>
  (int32 (a - y)).bind fun b =>
  (int32 (b * size_x)).bind fun row =>
  (collect ((List.range size_x.toNat).map fun (x : Nat) => ppmPixel pixel row x)).map
    List.flatten

/-- The bytes the row loop of `writePPM` writes: `out` is `alloca(3 * size_x)`
(undefined when the product overflows or is negative), and there is one
`fwrite` of the `3 * size_x` bytes of `out` per row `y = 0 .. size_y - 1`. -/
def ppmBody (size_x size_y : Int) (pixel : Nat → Nat) : Option (List Nat) :=
  (int32 (3 * size_x)).bind fun n =>
  if n < 0 then none
  else
    (collect ((List.range size_y.toNat).map fun (y : Nat) => ppmRow size_x size_y pixel y)).map
      List.flatten

/-- Everything `writePPM` writes to an opened file: the header, the rows, and
the closing `fprintf(file, "\n")`. -/
def ppmFile (size_x size_y : Int) (pixel : Nat → Nat) : Option (List Nat) :=
  (ppmBody size_x size_y pixel).map fun body =>
    ppmHeader size_x size_y ++ body ++ "\n".toList.map Char.toNat

/-- What one call of `writePPM` does: the text it prints to `stderr` (if any)
and the bytes it writes to the file (`none`: no file was opened). -/
structure PPMOutcome where
  stderr : Option String
  file : Option (List Nat)
deriving DecidableEq

/-- The function `writePPM`.  `fopenOk` says whether `fopen(fileName, "wb")`
returned a file, `errno` is the error number left by a failed `fopen`.  The
result is `none` when the `int` arithmetic of the row loop is undefined. -/
def writePPM (fopenOk : Bool) (errno : Int) (fileName : String)
    (size_x size_y : Int) (pixel : Nat → Nat) : Option PPMOutcome :=
  if fopenOk then
    (ppmFile size_x size_y pixel).map fun bytes => ⟨none, some bytes⟩
  else
    some ⟨some ("fopen('" ++ fileName ++ "', 'wb') failed: " ++ toString errno), none⟩

/-- The bytes of output row `y` in closed form, for sizes given as natural
numbers: byte `3*x + c` is byte `4*x + c` of the input row `size_y - 1 - y`. -/
def rowBytes (size_x size_y : Nat) (pixel : Nat → Nat) (y : Nat) : List Nat :=
  (List.range size_x).flatMap fun x =>
    [pixel (4 * ((size_y - 1 - y) * size_x) + (4 * x + 0)),
     pixel (4 * ((size_y - 1 - y) * size_x) + (4 * x + 1)),
     pixel (4 * ((size_y - 1 - y) * size_x) + (4 * x + 2))]

/-- The pixel bytes of the whole image in closed form: the rows `0 .. size_y - 1`. -/
def bodyBytes (size_x size_y : Nat) (pixel : Nat → Nat) : List Nat :=
  (List.range size_y).flatMap (rowBytes size_x size_y pixel)

/-- The outcome of `writePPM` in closed form, for sizes given as natural
numbers. -/
def ppmOutcome (fopenOk : Bool) (errno : Int) (fileName : String)
    (size_x size_y : Nat) (pixel : Nat → Nat) : PPMOutcome :=
  if fopenOk then
    ⟨none, some (ppmHeader size_x size_y ++ bodyBytes size_x size_y pixel ++ [10])⟩
  else
    ⟨some ("fopen('" ++ fileName ++ "', 'wb') failed: " ++ toString errno), none⟩

/-! ## The run -/

/-- One observable step of a run. -/
inductive Event (F : Type) where
  /-- a line written to `std::cerr` by `main` -/
  | cerr (msg : String)
  /-- a backend call, with the arguments that identify it -/
  | call (fn : String) (args : List String)
  /-- v240: `ospNewSharedData1D(overtices.data(), OSP_VEC3F, overtices.size())` -/
  | vertexData (overtices : List (vec3f F))
  /-- v240: `ospNewSharedData1D(indices.data(), OSP_UINT, indices.size())` -/
  | indexData (indices : List Nat)
  /-- v185: `ospNewData(overtices.size(), OSP_FLOAT, overtices.data())` -/
  | floatData (overtices : List F)
  /-- a call of `writePPM` and what it did -/
  | writePPM (fileName : String) (out : PPMOutcome)

/-- The environment of a run: everything decided outside the program. -/
structure Env where
  /-- the `OSPError` returned by `ospInit`; `OSP_NO_ERROR` is `0` -/
  ospInit : Int
  /-- whether `fopen(name, "wb")` succeeds -/
  fopen : String → Bool
  /-- `errno` after a failed `fopen(name, "wb")` -/
  errno : String → Int
  /-- the bytes of the mapped colour buffer after `k` render passes -/
  frame : Nat → Nat → Nat
  /-- the number of milliseconds printed after `RENDERTIME` -/
  duration : Int

/-- The result of a run: the value returned by `main` and the trace. -/
structure Run (F : Type) where
  exit : Int
  trace : List (Event F)

/-- Whether an event is a render pass (`ospRenderFrameBlocking` in v240,
`ospRenderFrame` in v185). -/
def Event.isRender {F : Type} : Event F → Bool
  | .call fn _ => fn == "ospRenderFrameBlocking" || fn == "ospRenderFrame"
  | _ => false

/-- The number of render passes issued in a trace. -/
def passes {F : Type} (t : List (Event F)) : Nat := (t.filter Event.isRender).length

/-- The loop `for (frames = 0; frames < n; frames++)` issuing one render pass
per iteration. -/
def renderLoop {F : Type} (fn : String) : Nat → List (Event F) → List (Event F)
  | 0, t => t
  | n + 1, t => renderLoop fn n (t ++ [Event.call fn ["framebuffer", "renderer"]])

/-- Map the colour buffer, call `writePPM` on it, unmap it. -/
def checkpoint {F : Type} (env : Env) (fileName : String) (size_x size_y : Int)
    (t : List (Event F)) : Option (List (Event F)) :=
  (writePPM (env.fopen fileName) (env.errno fileName) fileName size_x size_y
      (env.frame (passes t))).map fun out =>
    t ++ [Event.call "ospMapFrameBuffer" ["framebuffer", "OSP_FB_COLOR"],
          Event.writePPM fileName out,
          Event.call "ospUnmapFrameBuffer" ["fb", "framebuffer"]]

/-- The flag `pathtrace` of `main`: `true` unless `strcmp(argv[1], "-RC")` is 0. -/
def pathtraceFlag (argv1 : String) : Bool :=
  if argv1 = "-RC" then false else true

/-- The renderer type name chosen from the flag `pathtrace`. -/
def rendererName (pathtrace : Bool) : String :=
  if pathtrace then "pathtracer" else "scivis"

/-- The usage line printed when `argc != 3`. -/
def usageLine (argv : List String) : String :=
  "expected " ++ argv.headD "" ++ " -[RC|PT] path/to/edges.vtp"

/-- The line `READ <points> <cells> <overtices.size()>` printed after the cell loop. -/
def readLine (nVertices nCells nOvertices : Nat) : String :=
  "READ " ++ toString nVertices ++ " " ++ toString nCells ++ " " ++ toString nOvertices

/-- The backend calls of v240 `main` from `ospInit` up to the creation of the
framebuffer: camera, geometry (vertex and index data), material, model, group,
instance, world, light, renderer, framebuffer. -/
def scene240 {F : Type} (pathtrace : Bool) (overtices : List (vec3f F))
    (indices : List Nat) : List (Event F) :=
  [ .call "ospNewCamera" ["perspective"],
    .call "ospSetFloat" ["camera", "aspect"],
    .call "ospSetParam" ["camera", "position"],
    .call "ospSetParam" ["camera", "direction"],
    .call "ospSetParam" ["camera", "up"],
    .call "ospCommit" ["camera"],
    .call "ospNewGeometry" ["curve"],
    .vertexData overtices,
    .call "ospCommit" ["data"],
    .call "ospSetObject" ["mesh", "vertex.position", "data"],
    .indexData indices,
    .call "ospCommit" ["idata"],
    .call "ospSetObject" ["mesh", "index", "idata"],
    .call "ospSetInt" ["mesh", "type", "OSP_ROUND"],
    .call "ospSetInt" ["mesh", "basis", "OSP_LINEAR"],
    .call "ospSetFloat" ["mesh", "radius", ".005"],
    .call "ospCommit" ["mesh"],
    .call "ospRelease" ["data"],
    .call "ospNewMaterial" [rendererName pathtrace, "obj"],
    .call "ospCommit" ["mat"],
    .call "ospNewGeometricModel" ["mesh"],
    .call "ospSetObject" ["model", "material", "mat"],
    .call "ospCommit" ["model"],
    .call "ospRelease" ["mesh"],
    .call "ospRelease" ["mat"],
    .call "ospNewGroup" [],
    .call "ospSetObjectAsData" ["group", "geometry", "model"],
    .call "ospCommit" ["group"],
    .call "ospRelease" ["model"],
    .call "ospNewInstance" ["group"],
    .call "ospCommit" ["instance"],
    .call "ospRelease" ["group"],
    .call "ospNewWorld" [],
    .call "ospSetObjectAsData" ["world", "instance", "instance"],
    .call "ospRelease" ["instance"],
    .call "ospNewLight" ["ambient"],
    .call "ospCommit" ["light"],
    .call "ospRelease" ["light"],
    .call "ospCommit" ["world"],
    .call "ospGetBounds" ["world"],
    .call "ospNewRenderer" [rendererName pathtrace],
    .call "ospSetParam" ["renderer", "backgroundColor"],
    .call "ospCommit" ["renderer"],
    .call "ospNewFrameBuffer" ["1024", "768", "OSP_FB_SRGBA"],
    .call "ospResetAccumulation" ["framebuffer"] ]

/-- The calls of v240 `main` after the second checkpoint. -/
def cleanup240 {F : Type} : List (Event F) :=
  [ .call "ospPick" ["framebuffer", "renderer", "camera", "world"],
    .call "ospRelease" ["p.instance"],
    .call "ospRelease" ["p.model"],
    .call "ospRelease" ["renderer"],
    .call "ospRelease" ["camera"],
    .call "ospRelease" ["framebuffer"],
    .call "ospRelease" ["world"],
    .call "ospShutdown" [] ]

/-- The function `main` of `src/v240/viewEdges.cpp`.  `argv` holds all `argc`
arguments (program name first), `d` is what the reader produced for `argv[2]`.
The result is `none` when the run meets undefined behaviour. -/
def main240 {F : Type} (env : Env) (argv : List String) (d : vtkDataSet F) :
    Option (Run F) :=
  if argv.length ≠ 3 then
    some ⟨1, [.cerr (usageLine argv)]⟩
  else
    let pathtrace := pathtraceFlag (argv.getD 1 "")
    match extract240 d with
    | none => none
    | some geo =>
      let t0 : List (Event F) :=
        [.cerr (readLine d.vertices.length d.cells.length geo.1.length),
         .call "ospInit" []]
      if env.ospInit ≠ 0 then
        some ⟨env.ospInit, t0⟩
      else
        let t1 := t0 ++ scene240 pathtrace geo.1 geo.2
        let t2 := renderLoop "ospRenderFrameBlocking" 1 t1
        (checkpoint env "firstFrame.ppm" 1024 768 t2).bind fun t3 =>
        let t4 := renderLoop "ospRenderFrameBlocking" 10 t3
        let t5 := t4 ++ [.cerr ("RENDERTIME " ++ toString env.duration)]
        (checkpoint env "accumulatedFrame.ppm" 1024 768 t5).bind fun t6 =>
        some ⟨0, t6 ++ cleanup240⟩

/-- The backend calls of v185 `main` from the camera up to the clearing of the
framebuffer. -/
def scene185 {F : Type} (pathtrace : Bool) (overtices : List F) : List (Event F) :=
  [ .call "ospNewCamera" ["perspective"],
    .call "ospSetf" ["camera", "aspect"],
    .call "ospSet3fv" ["camera", "pos"],
    .call "ospSet3fv" ["camera", "up"],
    .call "ospSet3fv" ["camera", "dir"],
    .call "ospCommit" ["camera"],
    .call "ospNewGeometry" ["cylinders"],
    .floatData overtices,
    .call "ospCommit" ["data"],
    .call "ospSetData" ["mesh", "cylinders", "data"],
    .call "ospRelease" ["data"],
    .call "ospSet1i" ["mesh", "bytes_per_cylinder", "24"],
    .call "ospSet1i" ["mesh", "offset_v0", "0"],
    .call "ospSet1i" ["mesh", "offset_v1", "12"],
    .call "ospSet1f" ["mesh", "radius", ".005"],
    .call "ospCommit" ["mesh"],
    .call "ospNewModel" [],
    .call "ospAddGeometry" ["world", "mesh"],
    .call "ospRelease" ["mesh"],
    .call "ospCommit" ["world"],
    .call "ospNewRenderer" [rendererName pathtrace],
    .call "ospNewLight3" ["ambient"],
    .call "ospCommit" ["light"],
    .call "ospNewData" ["1", "OSP_LIGHT", "light"],
    .call "ospCommit" ["lights"],
    .call "ospSet1i" ["renderer", "aoSamples", "1"],
    .call "ospSet3f" ["renderer", "bgColor"],
    .call "ospSetObject" ["renderer", "model", "world"],
    .call "ospSetObject" ["renderer", "camera", "camera"],
    .call "ospSetObject" ["renderer", "lights", "lights"],
    .call "ospCommit" ["renderer"],
    .call "ospNewFrameBuffer" ["1024", "768", "OSP_FB_SRGBA"],
    .call "ospFrameBufferClear" ["framebuffer"] ]

/-- The calls of v185 `main` after the second checkpoint. -/
def cleanup185 {F : Type} : List (Event F) :=
  [ .call "ospRelease" ["renderer"],
    .call "ospRelease" ["camera"],
    .call "ospRelease" ["lights"],
    .call "ospRelease" ["light"],
    .call "ospRelease" ["framebuffer"],
    .call "ospRelease" ["world"],
    .call "ospShutdown" [] ]

/-- The function `main` of `src/v185/viewEdges.cpp`.  The result is `none`
when the run meets undefined behaviour. -/
def main185 {F : Type} (env : Env) (argv : List String) (d : vtkDataSet F) :
    Option (Run F) :=
  if argv.length ≠ 3 then
    some ⟨1, [.cerr (usageLine argv)]⟩
  else
    let pathtrace := pathtraceFlag (argv.getD 1 "")
    match extract185 d with
    | none => none
    | some overtices =>
      let t0 : List (Event F) :=
        [.cerr (readLine d.vertices.length d.cells.length overtices.length),
         .call "ospInit" []]
      if env.ospInit ≠ 0 then
        some ⟨env.ospInit, t0⟩
      else
        let t1 := t0 ++ scene185 pathtrace overtices
        let t2 := renderLoop "ospRenderFrame" 1 t1
        let t3 := t2 ++ [.cerr ("RENDERTIME " ++ toString env.duration)]
        (checkpoint env "firstFrame.ppm" 1024 768 t3).bind fun t4 =>
        let t5 := renderLoop "ospRenderFrame" 10 t4
        (checkpoint env "accumulatedFrame.ppm" 1024 768 t5).bind fun t6 =>
        some ⟨0, t6 ++ cleanup185⟩

/-! ## Observations on a trace -/

/-- The render passes and `writePPM` calls of a trace, in order. -/
def renderLog {F : Type} (t : List (Event F)) : List (Event F) :=
  t.filter fun e =>
    match e with
    | .call fn _ => fn == "ospRenderFrameBlocking" || fn == "ospRenderFrame"
    | .writePPM _ _ => true
    | _ => false

/-- The type names of the renderers created in a trace. -/
def renderersCreated {F : Type} (t : List (Event F)) : List String :=
  t.filterMap fun e =>
    match e with
    | .call "ospNewRenderer" [name] => some name
    | _ => none

/-- The renderer type names the materials of a trace were created for. -/
def materialsCreated {F : Type} (t : List (Event F)) : List String :=
  t.filterMap fun e =>
    match e with
    | .call "ospNewMaterial" (name :: _) => some name
    | _ => none

/-- The vertex buffers (v240) handed to the backend in a trace. -/
def vertexBuffers {F : Type} (t : List (Event F)) : List (List (vec3f F)) :=
  t.filterMap fun e =>
    match e with
    | .vertexData vs => some vs
    | _ => none

/-- The index arrays (v240) handed to the backend in a trace. -/
def indexBuffers {F : Type} (t : List (Event F)) : List (List Nat) :=
  t.filterMap fun e =>
    match e with
    | .indexData is => some is
    | _ => none

/-- The files a trace leaves behind: name and content of every file opened
by `writePPM`. -/
def filesWritten {F : Type} (t : List (Event F)) : List (String × List Nat) :=
  t.filterMap fun e =>
    match e with
    | .writePPM name ⟨_, some bytes⟩ => some (name, bytes)
    | _ => none

/-- The float buffers (v185) handed to the backend in a trace. -/
def floatBuffers {F : Type} (t : List (Event F)) : List (List F) :=
  t.filterMap fun e =>
    match e with
    | .floatData vs => some vs
    | _ => none

/-- The render-pass event of v240. -/
def pass240 {F : Type} : Event F := .call "ospRenderFrameBlocking" ["framebuffer", "renderer"]

/-- The render-pass event of v185. -/
def pass185 {F : Type} : Event F := .call "ospRenderFrame" ["framebuffer", "renderer"]

/-- The `writePPM` event of a checkpoint taken after `k` render passes, with
the outcome in closed form. -/
def checkpointEvent {F : Type} (env : Env) (fileName : String) (k : Nat) : Event F :=
  .writePPM fileName
    (ppmOutcome (env.fopen fileName) (env.errno fileName) fileName 1024 768 (env.frame k))

/-- The trace of a completed v240 run on the buffers `geo`. -/
def trace240 {F : Type} (env : Env) (argv : List String) (d : vtkDataSet F)
    (geo : List (vec3f F) × List Nat) : List (Event F) :=
  [.cerr (readLine d.vertices.length d.cells.length geo.1.length),
   .call "ospInit" []] ++
  scene240 (pathtraceFlag (argv.getD 1 "")) geo.1 geo.2 ++
  List.replicate 1 pass240 ++
  [.call "ospMapFrameBuffer" ["framebuffer", "OSP_FB_COLOR"],
   checkpointEvent env "firstFrame.ppm" 1,
   .call "ospUnmapFrameBuffer" ["fb", "framebuffer"]] ++
  List.replicate 10 pass240 ++
  [.cerr ("RENDERTIME " ++ toString env.duration)] ++
  [.call "ospMapFrameBuffer" ["framebuffer", "OSP_FB_COLOR"],
   checkpointEvent env "accumulatedFrame.ppm" 11,
   .call "ospUnmapFrameBuffer" ["fb", "framebuffer"]] ++
  cleanup240

/-- The trace of a completed v185 run on the float buffer `ov`. -/
def trace185 {F : Type} (env : Env) (argv : List String) (d : vtkDataSet F)
    (ov : List F) : List (Event F) :=
  [.cerr (readLine d.vertices.length d.cells.length ov.length),
   .call "ospInit" []] ++
  scene185 (pathtraceFlag (argv.getD 1 "")) ov ++
  List.replicate 1 pass185 ++
  [.cerr ("RENDERTIME " ++ toString env.duration)] ++
  [.call "ospMapFrameBuffer" ["framebuffer", "OSP_FB_COLOR"],
   checkpointEvent env "firstFrame.ppm" 1,
   .call "ospUnmapFrameBuffer" ["fb", "framebuffer"]] ++
  List.replicate 10 pass185 ++
  [.call "ospMapFrameBuffer" ["framebuffer", "OSP_FB_COLOR"],
   checkpointEvent env "accumulatedFrame.ppm" 11,
   .call "ospUnmapFrameBuffer" ["fb", "framebuffer"]] ++
  cleanup185

/-- The call `writePPM("firstFrame.ppm", ...)` of `main`, on the colour buffer
after 1 render pass. -/
def firstFrameCall (env : Env) : Option PPMOutcome :=
  writePPM (env.fopen "firstFrame.ppm") (env.errno "firstFrame.ppm") "firstFrame.ppm"
    1024 768 (env.frame 1)

/-- The call `writePPM("accumulatedFrame.ppm", ...)` of `main`, on the colour
buffer after 11 render passes. -/
def accumulatedFrameCall (env : Env) : Option PPMOutcome :=
  writePPM (env.fopen "accumulatedFrame.ppm") (env.errno "accumulatedFrame.ppm")
    "accumulatedFrame.ppm" 1024 768 (env.frame 11)

/-- The render passes and `writePPM` calls of a completed run in order: one
pass, the first checkpoint with outcome `o1`, ten passes, the second
checkpoint with outcome `o2`. -/
def renderSequence {F : Type} (pass : Event F) (o1 o2 : PPMOutcome) : List (Event F) :=
  [pass, .writePPM "firstFrame.ppm" o1] ++ List.replicate 10 pass ++
    [.writePPM "accumulatedFrame.ppm" o2]

/-! ## The spec's wording of the extractor and the builder -/

/-- The two failures the spec names for extraction and geometry building. -/
inductive SpecError where
  | IndexOutOfRange
  | EmptyGeometry
deriving DecidableEq

/-- The geometry builder as the spec words it (section 4.2): fail with
`EmptyGeometry` on an empty edge sequence; otherwise the buffer holds both
endpoints of every edge in order and `index[i] = 2*i`. -/
def specGeometryBuilder {α : Type} (edges : List (α × α)) :
    Except SpecError (List α × List Nat) :=
  if edges.isEmpty then .error .EmptyGeometry
  else .ok (edges.flatMap (fun e => [e.1, e.2]), (List.range edges.length).map (fun i => 2 * i))

/-! ## Sample inputs -/

/-- A sample point with all three coordinates equal to `n`. -/
def pt (n : Int) : vec3f Int := ⟨n, n, n⟩

/-- A two-point line cell joining points `a` and `b`. -/
def lineCell (a b : Int) : vtkCell := ⟨VTK_LINE, 2, fun k => if k = 0 then a else b⟩

/-- A vertex cell (type `VTK_VERTEX`) on point 0.  In a `vtkPolyData` the
vertex cells are numbered before the line cells. -/
def vertexCell : vtkCell := ⟨VTK_VERTEX, 1, fun _ => 0⟩

/-- A polyline cell (type `VTK_POLY_LINE`) through points 0, 1, 2. -/
def polyLineCell : vtkCell := ⟨VTK_POLY_LINE, 3, fun k => k⟩

/-- A mesh of three points with one polyline cell followed by one line cell. -/
def mixedMesh : vtkDataSet Int := ⟨[pt 0, pt 1, pt 2], [polyLineCell, lineCell 0 1]⟩

/-- A mesh of three points with two vertex cells followed by two line cells. -/
def vertsAndLines : vtkDataSet Int :=
  ⟨[pt 0, pt 1, pt 2], [vertexCell, vertexCell, lineCell 0 1, lineCell 1 2]⟩

/-- The mesh with 0 points and 0 cells. -/
def emptyMesh : vtkDataSet Int := ⟨[], []⟩

/-- A mesh of four points with two line cells. -/
def twoLines : vtkDataSet Int := ⟨[pt 0, pt 1, pt 2, pt 3], [lineCell 0 1, lineCell 2 3]⟩

/-- A sample environment: `ospInit` succeeds and every `fopen` succeeds. -/
def sampleEnv : Env := ⟨0, fun _ => true, fun _ => 0, fun k i => (k + i) % 256, 5⟩

/-- A sample environment in which every `fopen` fails with `errno` 13. -/
def readOnlyEnv : Env := ⟨0, fun _ => false, fun _ => 13, fun k i => (k + i) % 256, 5⟩

/-- A sample command line selecting the path tracer. -/
def sampleArgv : List String := ["viewEdges", "-PT", "edges.vtp"]

/-! ## Lemmas on the cell loops -/

theorem cellLoop240_eq {F : Type} (vertices : List (vec3f F)) :
    ∀ (cells : List vtkCell) (i : Nat) (ov : List (vec3f F)) (ind : List Nat),
      cellLoop240 vertices cells i (ov, ind) =
        (lineEdges vertices cells).map fun es =>
          (ov ++ es.flatMap (fun e => [e.1, e.2]), ind ++ lineIndices cells i) := by
  intro cells
  induction cells with
  | nil => intro i ov ind; simp [cellLoop240, lineIndices, lineEdges]
  | cons c rest ih =>
    intro i ov ind
    by_cases h : c.GetCellType = VTK_LINE
    · simp only [cellLoop240, lineIndices, lineEdges, if_pos h]
      cases g0 : vecAt vertices (p0 c) with
      | none => simp
      | some v0 =>
        cases g1 : vecAt vertices (p1 c) with
        | none => simp
        | some v1 =>
          simp only [ih]
          cases lineEdges vertices rest with
          | none => simp
          | some es => simp
    · simp only [cellLoop240, lineIndices, lineEdges, if_neg h, ih]

theorem cellLoop185_eq {F : Type} (vertices : List (vec3f F)) :
    ∀ (cells : List vtkCell) (i : Nat) (ov : List F),
      cellLoop185 vertices cells i ov =
        (lineEdges vertices cells).map fun es => ov ++ es.flatMap sixFloats := by
  intro cells
  induction cells with
  | nil => intro i ov; simp [cellLoop185, lineEdges]
  | cons c rest ih =>
    intro i ov
    by_cases h : c.GetCellType = VTK_LINE
    · simp only [cellLoop185, lineEdges, if_pos h]
      cases g0 : vecAt vertices (p0 c) with
      | none => simp
      | some v0 =>
        cases g1 : vecAt vertices (p1 c) with
        | none => simp
        | some v1 =>
          simp only [ih]
          cases lineEdges vertices rest with
          | none => simp
          | some es => simp [sixFloats]
    · simp only [cellLoop185, lineEdges, if_neg h, ih]

theorem extract240_eq {F : Type} (d : vtkDataSet F) :
    extract240 d = (lineEdges d.vertices d.cells).map fun es =>
      (es.flatMap (fun e => [e.1, e.2]), lineIndices d.cells 0) := by
  simp [extract240, cellLoop240_eq]

theorem extract185_eq {F : Type} (d : vtkDataSet F) :
    extract185 d = (lineEdges d.vertices d.cells).map fun es => es.flatMap sixFloats := by
  simp [extract185, cellLoop185_eq]

theorem length_flatMap_const {α β : Type} (f : α → List β) (k : Nat)
    (hk : ∀ a, (f a).length = k) (l : List α) : (l.flatMap f).length = l.length * k := by
  induction l with
  | nil => simp
  | cons a rest ih => simp [List.flatMap_cons, ih, hk, Nat.succ_mul]; omega

theorem lineIndices_length (cells : List vtkCell) :
    ∀ i, (lineIndices cells i).length = (cells.filter isLine).length := by
  induction cells with
  | nil => intro i; simp [lineIndices]
  | cons c rest ih =>
    intro i
    by_cases h : c.GetCellType = VTK_LINE
    · simp [lineIndices, isLine, h, ih]
    · simp [lineIndices, isLine, h, ih]

theorem vecAt_some_iff {α : Type} (v : List α) (p : Int) :
    (vecAt v p).isSome = inVector v p := by
  unfold vecAt inVector
  by_cases h0 : 0 ≤ p
  · simp only [if_pos h0, h0, decide_True, Bool.true_and]
    by_cases h1 : p < v.length
    · have : p.toNat < v.length := by omega
      simp [h1, List.getElem?_eq_getElem this]
    · have : v.length ≤ p.toNat := by omega
      simp [h1, List.getElem?_eq_none this]
  · simp [h0]

/-- The edges of the line cells relate, cell by cell and in order, to the
reads `vertices[p0]`, `vertices[p1]`. -/
theorem lineEdges_forall₂ {F : Type} (vertices : List (vec3f F)) :
    ∀ (cells : List vtkCell) (es : List (vec3f F × vec3f F)),
      lineEdges vertices cells = some es →
        List.Forall₂ (fun c e => vecAt vertices (p0 c) = some e.1 ∧
            vecAt vertices (p1 c) = some e.2) (cells.filter isLine) es := by
  intro cells
  induction cells with
  | nil =>
    intro es h
    simp only [lineEdges, Option.some.injEq] at h
    subst h
    simp
  | cons c rest ih =>
    intro es h
    by_cases hl : c.GetCellType = VTK_LINE
    · have hf : (c :: rest).filter isLine = c :: rest.filter isLine := by
        simp [isLine, hl]
      simp only [lineEdges, if_pos hl] at h
      cases g0 : vecAt vertices (p0 c) with
      | none => simp [g0] at h
      | some v0 =>
        cases g1 : vecAt vertices (p1 c) with
        | none => simp [g0, g1] at h
        | some v1 =>
          cases gr : lineEdges vertices rest with
          | none => simp [g0, g1, gr] at h
          | some es1 =>
            simp only [g0, g1, gr, Option.map_some', Option.some.injEq] at h
            subst h
            rw [hf]
            exact List.Forall₂.cons ⟨g0, g1⟩ (ih es1 gr)
    · have hf : (c :: rest).filter isLine = rest.filter isLine := by
        simp [isLine, hl]
      simp only [lineEdges, if_neg hl] at h
      rw [hf]
      exact ih es h

/-- The cell loop is defined when every read is inside the vector. -/
theorem lineEdges_defined {F : Type} (vertices : List (vec3f F)) :
    ∀ (cells : List vtkCell),
      (cells.all fun c =>
        !isLine c || (inVector vertices (p0 c) && inVector vertices (p1 c))) = true →
      ∃ es, lineEdges vertices cells = some es := by
  intro cells
  induction cells with
  | nil => intro _; exact ⟨[], rfl⟩
  | cons c rest ih =>
    intro h
    simp only [List.all_cons, Bool.and_eq_true] at h
    obtain ⟨es1, hes1⟩ := ih h.2
    by_cases hl : c.GetCellType = VTK_LINE
    · have hc := h.1
      simp only [isLine, hl, decide_True, Bool.not_true, Bool.false_or, Bool.and_eq_true] at hc
      rw [← vecAt_some_iff, ← vecAt_some_iff] at hc
      obtain ⟨v0, g0⟩ := Option.isSome_iff_exists.mp hc.1
      obtain ⟨v1, g1⟩ := Option.isSome_iff_exists.mp hc.2
      exact ⟨(v0, v1) :: es1, by simp [lineEdges, hl, g0, g1, hes1]⟩
    · exact ⟨es1, by simp [lineEdges, hl, hes1]⟩

theorem extract_defined {F : Type} (d : vtkDataSet F) (hin : readsInside d = true) :
    ∃ es, lineEdges d.vertices d.cells = some es ∧
      extract240 d = some (es.flatMap (fun e => [e.1, e.2]), lineIndices d.cells 0) ∧
      extract185 d = some (es.flatMap sixFloats) := by
  obtain ⟨es, hes⟩ := lineEdges_defined d.vertices d.cells hin
  exact ⟨es, hes, by simp [extract240_eq, hes], by simp [extract185_eq, hes]⟩

theorem lineEdges_length {F : Type} (vertices : List (vec3f F)) (cells : List vtkCell)
    (es : List (vec3f F × vec3f F)) (h : lineEdges vertices cells = some es) :
    es.length = (cells.filter isLine).length :=
  (List.Forall₂.length_eq (lineEdges_forall₂ vertices cells es h)).symm

/-! ## Lemmas on the image writer -/

theorem getElem?_flatMap_const {α β : Type} (f : α → List β) (k : Nat)
    (hk : ∀ a, (f a).length = k) :
    ∀ (l : List α) (i c : Nat), c < k →
      (l.flatMap f)[k * i + c]? = (l[i]?).bind (fun a => (f a)[c]?) := by
  intro l
  induction l with
  | nil => intro i c _; simp
  | cons a rest ih =>
    intro i c hc
    rw [List.flatMap_cons]
    cases i with
    | zero =>
      have h1 : c < (f a).length := by rw [hk]; exact hc
      simp [List.getElem?_append_left h1]
    | succ j =>
      have h1 : (f a).length ≤ k * (j + 1) + c := by
        rw [hk, Nat.mul_succ]; omega
      rw [List.getElem?_append_right h1, hk]
      have h2 : k * (j + 1) + c - k = k * j + c := by
        rw [Nat.mul_succ]; omega
      rw [h2, ih j c hc]
      simp

theorem rowBytes_length (size_x size_y : Nat) (pixel : Nat → Nat) (y : Nat) :
    (rowBytes size_x size_y pixel y).length = 3 * size_x := by
  unfold rowBytes
  rw [length_flatMap_const _ 3 (fun _ => by simp)]
  simp [Nat.mul_comm]

theorem bodyBytes_length (size_x size_y : Nat) (pixel : Nat → Nat) :
    (bodyBytes size_x size_y pixel).length = size_x * size_y * 3 := by
  unfold bodyBytes
  rw [length_flatMap_const _ (3 * size_x) (rowBytes_length size_x size_y pixel),
    List.length_range]
  ring

theorem rowBytes_getElem? (size_x size_y : Nat) (pixel : Nat → Nat) (y x c : Nat)
    (hx : x < size_x) (hc : c < 3) :
    (rowBytes size_x size_y pixel y)[3 * x + c]? =
      some (pixel (4 * ((size_y - 1 - y) * size_x) + (4 * x + c))) := by
  unfold rowBytes
  rw [getElem?_flatMap_const _ 3 (fun _ => by simp) _ x c hc]
  rw [List.getElem?_range hx]
  have : c = 0 ∨ c = 1 ∨ c = 2 := by omega
  rcases this with h | h | h <;> subst h <;> simp

theorem bodyBytes_getElem? (size_x size_y : Nat) (pixel : Nat → Nat) (y x c : Nat)
    (hy : y < size_y) (hx : x < size_x) (hc : c < 3) :
    (bodyBytes size_x size_y pixel)[3 * (y * size_x + x) + c]? =
      some (pixel (4 * ((size_y - 1 - y) * size_x + x) + c)) := by
  unfold bodyBytes
  have hidx : 3 * (y * size_x + x) + c = (3 * size_x) * y + (3 * x + c) := by
    rw [Nat.mul_add, Nat.mul_assoc, Nat.mul_comm y size_x]; omega
  have hlt : 3 * x + c < 3 * size_x := by omega
  rw [hidx, getElem?_flatMap_const _ (3 * size_x) (rowBytes_length size_x size_y pixel) _ y _ hlt]
  rw [List.getElem?_range hy]
  simp only [Option.some_bind]
  rw [rowBytes_getElem? size_x size_y pixel y x c hx hc]
  congr 2
  rw [Nat.mul_add]; omega

theorem int32_some (v : Int) (h0 : -2147483648 ≤ v) (h1 : v ≤ 2147483647) :
    int32 v = some v := by
  unfold int32
  rw [if_pos ⟨h0, h1⟩]

theorem collect_map_some {α β : Type} (g : α → Option β) (f : α → β) :
    ∀ (l : List α), (∀ a ∈ l, g a = some (f a)) → collect (l.map g) = some (l.map f) := by
  intro l
  induction l with
  | nil => intro _; rfl
  | cons a rest ih =>
    intro h
    have ha := h a (List.mem_cons_self _ _)
    have hr := ih fun b hb => h b (List.mem_cons_of_mem _ hb)
    simp [collect, ha, hr]

theorem collect_map_none {α β : Type} (g : α → Option β) :
    ∀ (l : List α) (a : α), a ∈ l → g a = none → collect (l.map g) = none := by
  intro l
  induction l with
  | nil => intro a ha; simp at ha
  | cons b rest ih =>
    intro a ha hg
    cases hb : g b with
    | none => simp [collect, hb]
    | some v =>
      have har : a ∈ rest := by
        rcases List.mem_cons.mp ha with h | h
        · subst h; rw [hg] at hb; cases hb
        · exact h
      simp [collect, hb, ih a har hg]

theorem copyByte_eq (pixel : Nat → Nat) (r x c : Nat) (hx : 4 * x + 2 ≤ 2147483647)
    (hc : c ≤ 2) :
    copyByte pixel (r : Int) (x : Int) (c : Int) = some (pixel (4 * r + (4 * x + c))) := by
  unfold copyByte
  rw [int32_some (3 * (x : Int)) (by omega) (by omega)]
  simp only [Option.some_bind]
  rw [int32_some (3 * (x : Int) + c) (by omega) (by omega)]
  simp only [Option.some_bind]
  rw [int32_some (4 * (x : Int)) (by omega) (by omega)]
  simp only [Option.some_bind]
  rw [int32_some (4 * (x : Int) + c) (by omega) (by omega)]
  simp only [Option.some_bind]
  have hj : (4 * (r : Int) + (4 * (x : Int) + (c : Int))).toNat = 4 * r + (4 * x + c) := by
    omega
  rw [hj]

theorem ppmPixel_eq (pixel : Nat → Nat) (r x : Nat) (hx : 4 * x + 2 ≤ 2147483647) :
    ppmPixel pixel (r : Int) (x : Int) =
      some [pixel (4 * r + (4 * x + 0)), pixel (4 * r + (4 * x + 1)),
            pixel (4 * r + (4 * x + 2))] := by
  unfold ppmPixel
  have h0 := copyByte_eq pixel r x 0 hx (by omega)
  have h1 := copyByte_eq pixel r x 1 hx (by omega)
  have h2 := copyByte_eq pixel r x 2 hx (by omega)
  simp only [Nat.cast_zero, Nat.cast_one, Nat.cast_ofNat] at h0 h1 h2
  rw [h0, h1, h2]
  rfl

theorem ppmRow_eq (W H : Nat) (pixel : Nat → Nat) (y : Nat)
    (hW : 4 * W ≤ 2147483647) (hH : H ≤ 2147483647) (hWH : W * H ≤ 2147483647)
    (hy : y < H) :
    ppmRow (W : Int) (H : Int) pixel (y : Int) = some (rowBytes W H pixel y) := by
  unfold ppmRow
  have hr : ((H : Int) - 1 - (y : Int)) * (W : Int) = (((H - 1 - y) * W : Nat) : Int) := by
    have : ((H - 1 - y : Nat) : Int) = (H : Int) - 1 - (y : Int) := by omega
    rw [Nat.cast_mul, this]
  have hle : (H - 1 - y) * W ≤ W * H := by
    rw [Nat.mul_comm W H]
    exact Nat.mul_le_mul_right W (by omega)
  rw [int32_some ((H : Int) - 1) (by omega) (by omega)]
  simp only [Option.some_bind]
  rw [int32_some ((H : Int) - 1 - (y : Int)) (by omega) (by omega)]
  simp only [Option.some_bind]
  rw [hr, int32_some _ (by omega) (by omega)]
  simp only [Option.some_bind, Int.toNat_ofNat]
  rw [collect_map_some _ (fun x =>
    [pixel (4 * ((H - 1 - y) * W) + (4 * x + 0)), pixel (4 * ((H - 1 - y) * W) + (4 * x + 1)),
     pixel (4 * ((H - 1 - y) * W) + (4 * x + 2))])]
  · rfl
  · intro x hx
    have hxW : x < W := List.mem_range.mp hx
    exact ppmPixel_eq pixel ((H - 1 - y) * W) x (by omega)

theorem ppmBody_eq (W H : Nat) (pixel : Nat → Nat)
    (hW : 4 * W ≤ 2147483647) (hH : H ≤ 2147483647) (hWH : W * H ≤ 2147483647) :
    ppmBody (W : Int) (H : Int) pixel = some (bodyBytes W H pixel) := by
  unfold ppmBody
  rw [int32_some (3 * (W : Int)) (by omega) (by omega)]
  simp only [Option.some_bind]
  rw [if_neg (by omega), Int.toNat_ofNat]
  rw [collect_map_some _ (rowBytes W H pixel)]
  · rfl
  · intro y hy
    exact ppmRow_eq W H pixel y hW hH hWH (List.mem_range.mp hy)

/-- When the sizes stay in range, `writePPM` is defined and does what the
closed form says. -/
theorem writePPM_eq (fopenOk : Bool) (errno : Int) (fileName : String) (W H : Nat)
    (pixel : Nat → Nat)
    (hW : 4 * W ≤ 2147483647) (hH : H ≤ 2147483647) (hWH : W * H ≤ 2147483647) :
    writePPM fopenOk errno fileName (W : Int) (H : Int) pixel =
      some (ppmOutcome fopenOk errno fileName W H pixel) := by
  unfold writePPM ppmOutcome ppmFile
  rw [ppmBody_eq W H pixel hW hH hWH]
  cases fopenOk <;> rfl

theorem writePPM_1024_768 (fopenOk : Bool) (errno : Int) (fileName : String)
    (pixel : Nat → Nat) :
    writePPM fopenOk errno fileName 1024 768 pixel =
      some (ppmOutcome fopenOk errno fileName 1024 768 pixel) :=
  writePPM_eq fopenOk errno fileName 1024 768 pixel (by norm_num) (by norm_num) (by norm_num)

/-! ## Lemmas on traces -/

theorem renderLoop_eq {F : Type} (fn : String) :
    ∀ (n : Nat) (t : List (Event F)),
      renderLoop fn n t = t ++ List.replicate n (.call fn ["framebuffer", "renderer"]) := by
  intro n
  induction n with
  | zero => intro t; simp [renderLoop]
  | succ n ih =>
    intro t
    rw [renderLoop, ih, List.replicate_succ, List.append_assoc]
    rfl

theorem passes_append {F : Type} (a b : List (Event F)) :
    passes (a ++ b) = passes a + passes b := by
  simp [passes]

theorem passes_replicate240 {F : Type} (n : Nat) :
    passes (List.replicate n (pass240 : Event F)) = n := by
  induction n with
  | zero => rfl
  | succ n ih =>
    rw [List.replicate_succ, ← List.singleton_append, passes_append, ih]
    have : passes [(pass240 : Event F)] = 1 := by simp [passes, pass240, Event.isRender]
    omega

theorem passes_replicate185 {F : Type} (n : Nat) :
    passes (List.replicate n (pass185 : Event F)) = n := by
  induction n with
  | zero => rfl
  | succ n ih =>
    rw [List.replicate_succ, ← List.singleton_append, passes_append, ih]
    have : passes [(pass185 : Event F)] = 1 := by simp [passes, pass185, Event.isRender]
    omega

theorem passes_scene240 {F : Type} (pt : Bool) (ov : List (vec3f F)) (ind : List Nat) :
    passes (scene240 pt ov ind) = 0 := by
  simp [passes, scene240, Event.isRender]

theorem passes_scene185 {F : Type} (pt : Bool) (ov : List F) :
    passes (scene185 pt ov : List (Event F)) = 0 := by
  simp [passes, scene185, Event.isRender]

theorem passes_pre {F : Type} (a : String) :
    passes ([.cerr a, .call "ospInit" []] : List (Event F)) = 0 := by
  simp [passes, Event.isRender]

theorem passes_cerr {F : Type} (a : String) :
    passes ([.cerr a] : List (Event F)) = 0 := by
  simp [passes, Event.isRender]

theorem passes_checkpoint {F : Type} (env : Env) (name : String) (k : Nat) :
    passes ([.call "ospMapFrameBuffer" ["framebuffer", "OSP_FB_COLOR"],
             checkpointEvent env name k,
             .call "ospUnmapFrameBuffer" ["fb", "framebuffer"]] : List (Event F)) = 0 := by
  simp [passes, Event.isRender, checkpointEvent]

theorem main240_run {F : Type} (env : Env) (argv : List String) (d : vtkDataSet F)
    (geo : List (vec3f F) × List Nat)
    (hargs : argv.length = 3) (hinit : env.ospInit = 0) (hgeo : extract240 d = some geo) :
    main240 env argv d = some ⟨0, trace240 env argv d geo⟩ := by
  unfold main240 trace240
  rw [if_neg (by omega)]
  simp only [hgeo]
  rw [if_neg (by omega)]
  simp only [renderLoop_eq, checkpoint, writePPM_1024_768, Option.map_some', Option.some_bind]
  have e1 : ∀ k, (Event.writePPM "firstFrame.ppm"
      (ppmOutcome (env.fopen "firstFrame.ppm") (env.errno "firstFrame.ppm") "firstFrame.ppm"
        1024 768 (env.frame k)) : Event F) = checkpointEvent env "firstFrame.ppm" k :=
    fun _ => rfl
  have e2 : ∀ k, (Event.writePPM "accumulatedFrame.ppm"
      (ppmOutcome (env.fopen "accumulatedFrame.ppm") (env.errno "accumulatedFrame.ppm")
        "accumulatedFrame.ppm" 1024 768 (env.frame k)) : Event F) =
        checkpointEvent env "accumulatedFrame.ppm" k :=
    fun _ => rfl
  have e3 : (Event.call "ospRenderFrameBlocking" ["framebuffer", "renderer"] : Event F) = pass240 :=
    rfl
  rw [e1, e2, e3]
  simp only [passes_append, passes_pre, passes_scene240, passes_replicate240, passes_cerr,
    passes_checkpoint, Nat.zero_add, Nat.add_zero, Nat.reduceAdd]

theorem main185_run {F : Type} (env : Env) (argv : List String) (d : vtkDataSet F)
    (ov : List F)
    (hargs : argv.length = 3) (hinit : env.ospInit = 0) (hov : extract185 d = some ov) :
    main185 env argv d = some ⟨0, trace185 env argv d ov⟩ := by
  unfold main185 trace185
  rw [if_neg (by omega)]
  simp only [hov]
  rw [if_neg (by omega)]
  simp only [renderLoop_eq, checkpoint, writePPM_1024_768, Option.map_some', Option.some_bind]
  have e1 : ∀ k, (Event.writePPM "firstFrame.ppm"
      (ppmOutcome (env.fopen "firstFrame.ppm") (env.errno "firstFrame.ppm") "firstFrame.ppm"
        1024 768 (env.frame k)) : Event F) = checkpointEvent env "firstFrame.ppm" k :=
    fun _ => rfl
  have e2 : ∀ k, (Event.writePPM "accumulatedFrame.ppm"
      (ppmOutcome (env.fopen "accumulatedFrame.ppm") (env.errno "accumulatedFrame.ppm")
        "accumulatedFrame.ppm" 1024 768 (env.frame k)) : Event F) =
        checkpointEvent env "accumulatedFrame.ppm" k :=
    fun _ => rfl
  have e3 : (Event.call "ospRenderFrame" ["framebuffer", "renderer"] : Event F) = pass185 :=
    rfl
  rw [e1, e2, e3]
  simp only [passes_append, passes_pre, passes_scene185, passes_replicate185, passes_cerr,
    passes_checkpoint, Nat.zero_add, Nat.add_zero, Nat.reduceAdd]

theorem renderLog_append {F : Type} (a b : List (Event F)) :
    renderLog (a ++ b) = renderLog a ++ renderLog b := by
  simp [renderLog]

theorem renderLog_scene240 {F : Type} (pt : Bool) (ov : List (vec3f F)) (ind : List Nat) :
    renderLog (scene240 pt ov ind) = [] := by
  simp [renderLog, scene240]

theorem renderLog_scene185 {F : Type} (pt : Bool) (ov : List F) :
    renderLog (scene185 pt ov : List (Event F)) = [] := by
  simp [renderLog, scene185]

theorem renderLog_replicate240 {F : Type} (n : Nat) :
    renderLog (List.replicate n (pass240 : Event F)) = List.replicate n pass240 := by
  simp [renderLog, pass240]

theorem renderLog_replicate185 {F : Type} (n : Nat) :
    renderLog (List.replicate n (pass185 : Event F)) = List.replicate n pass185 := by
  simp [renderLog, pass185]

theorem rendererName_flag (s : String) :
    rendererName (pathtraceFlag s) = if s = "-RC" then "scivis" else "pathtracer" := by
  unfold rendererName pathtraceFlag
  by_cases h : s = "-RC" <;> simp [h]

theorem filesWritten_append {F : Type} (a b : List (Event F)) :
    filesWritten (a ++ b) = filesWritten a ++ filesWritten b := by
  simp [filesWritten]

theorem filesWritten_checkpoint {F : Type} (env : Env) (name : String) (k : Nat) :
    filesWritten ([.call "ospMapFrameBuffer" ["framebuffer", "OSP_FB_COLOR"],
                   checkpointEvent env name k,
                   .call "ospUnmapFrameBuffer" ["fb", "framebuffer"]] : List (Event F)) =
      filesWritten [(checkpointEvent env name k : Event F)] := by
  have h : ([.call "ospMapFrameBuffer" ["framebuffer", "OSP_FB_COLOR"],
             checkpointEvent env name k,
             .call "ospUnmapFrameBuffer" ["fb", "framebuffer"]] : List (Event F)) =
      [.call "ospMapFrameBuffer" ["framebuffer", "OSP_FB_COLOR"]] ++
        ([checkpointEvent env name k] ++
          [.call "ospUnmapFrameBuffer" ["fb", "framebuffer"]]) := rfl
  rw [h, filesWritten_append, filesWritten_append]
  have h1 : filesWritten
      ([.call "ospMapFrameBuffer" ["framebuffer", "OSP_FB_COLOR"]] : List (Event F)) = [] := rfl
  have h2 : filesWritten
      ([.call "ospUnmapFrameBuffer" ["fb", "framebuffer"]] : List (Event F)) = [] := rfl
  rw [h1, h2, List.nil_append, List.append_nil]

theorem filesWritten_scene240 {F : Type} (pt : Bool) (ov : List (vec3f F)) (ind : List Nat) :
    filesWritten (scene240 pt ov ind) = [] := by
  simp [filesWritten, scene240]

theorem filesWritten_scene185 {F : Type} (pt : Bool) (ov : List F) :
    filesWritten (scene185 pt ov : List (Event F)) = [] := by
  simp [filesWritten, scene185]

theorem filesWritten_replicate240 {F : Type} (n : Nat) :
    filesWritten (List.replicate n (pass240 : Event F)) = [] := by
  simp [filesWritten, pass240]

theorem filesWritten_replicate185 {F : Type} (n : Nat) :
    filesWritten (List.replicate n (pass185 : Event F)) = [] := by
  simp [filesWritten, pass185]

theorem renderLog_trace240 {F : Type} (env : Env) (argv : List String) (d : vtkDataSet F)
    (geo : List (vec3f F) × List Nat) :
    renderLog (trace240 env argv d geo) =
      [pass240, checkpointEvent env "firstFrame.ppm" 1] ++ List.replicate 10 pass240 ++
        [checkpointEvent env "accumulatedFrame.ppm" 11] := by
  unfold trace240
  simp only [renderLog_append, renderLog_scene240, renderLog_replicate240]
  simp [renderLog, checkpointEvent, cleanup240]

theorem renderLog_trace185 {F : Type} (env : Env) (argv : List String) (d : vtkDataSet F)
    (ov : List F) :
    renderLog (trace185 env argv d ov) =
      [pass185, checkpointEvent env "firstFrame.ppm" 1] ++ List.replicate 10 pass185 ++
        [checkpointEvent env "accumulatedFrame.ppm" 11] := by
  unfold trace185
  simp only [renderLog_append, renderLog_scene185, renderLog_replicate185]
  simp [renderLog, checkpointEvent, cleanup185]

theorem buffers_trace240 {F : Type} (env : Env) (argv : List String) (d : vtkDataSet F)
    (geo : List (vec3f F) × List Nat) :
    vertexBuffers (trace240 env argv d geo) = [geo.1] ∧
    indexBuffers (trace240 env argv d geo) = [geo.2] := by
  unfold trace240
  constructor
  · simp [vertexBuffers, scene240, cleanup240, checkpointEvent, pass240, List.filterMap_append]
  · simp [indexBuffers, scene240, cleanup240, checkpointEvent, pass240, List.filterMap_append]

theorem buffers_trace185 {F : Type} (env : Env) (argv : List String) (d : vtkDataSet F)
    (ov : List F) :
    floatBuffers (trace185 env argv d ov) = [ov] := by
  unfold trace185
  simp [floatBuffers, scene185, cleanup185, checkpointEvent, pass185, List.filterMap_append]

theorem passes_trace240 {F : Type} (env : Env) (argv : List String) (d : vtkDataSet F)
    (geo : List (vec3f F) × List Nat) :
    passes (trace240 env argv d geo) = 11 := by
  unfold trace240
  simp only [passes_append, passes_pre, passes_scene240, passes_replicate240, passes_cerr,
    passes_checkpoint]
  simp [passes, cleanup240, Event.isRender]

theorem passes_trace185 {F : Type} (env : Env) (argv : List String) (d : vtkDataSet F)
    (ov : List F) :
    passes (trace185 env argv d ov) = 11 := by
  unfold trace185
  simp only [passes_append, passes_pre, passes_scene185, passes_replicate185, passes_cerr,
    passes_checkpoint]
  simp [passes, cleanup185, Event.isRender]

theorem renderers_trace240 {F : Type} (env : Env) (argv : List String) (d : vtkDataSet F)
    (geo : List (vec3f F) × List Nat) :
    renderersCreated (trace240 env argv d geo) =
      [rendererName (pathtraceFlag (argv.getD 1 ""))] ∧
    materialsCreated (trace240 env argv d geo) =
      [rendererName (pathtraceFlag (argv.getD 1 ""))] := by
  unfold trace240
  constructor
  · simp [renderersCreated, scene240, cleanup240, checkpointEvent, pass240,
      List.filterMap_append]
  · simp [materialsCreated, scene240, cleanup240, checkpointEvent, pass240,
      List.filterMap_append]

theorem renderers_trace185 {F : Type} (env : Env) (argv : List String) (d : vtkDataSet F)
    (ov : List F) :
    renderersCreated (trace185 env argv d ov) =
      [rendererName (pathtraceFlag (argv.getD 1 ""))] := by
  unfold trace185
  simp [renderersCreated, scene185, cleanup185, checkpointEvent, pass185,
    List.filterMap_append]

theorem files_trace240 {F : Type} (env : Env) (argv : List String) (d : vtkDataSet F)
    (geo : List (vec3f F) × List Nat) :
    filesWritten (trace240 env argv d geo) =
      filesWritten [(checkpointEvent env "firstFrame.ppm" 1 : Event F)] ++
      filesWritten [(checkpointEvent env "accumulatedFrame.ppm" 11 : Event F)] := by
  unfold trace240
  simp only [filesWritten_append, filesWritten_checkpoint, filesWritten_scene240,
    filesWritten_replicate240]
  simp [filesWritten, cleanup240]

/-! ## Supporting facts on ids, the spec extractor and the index array -/

theorem lineIndices_even (cells : List vtkCell) :
    ∀ i, ∀ v ∈ lineIndices cells i, v % 2 = 0 := by
  induction cells with
  | nil => intro i v hv; simp [lineIndices] at hv
  | cons c rest ih =>
    intro i v hv
    by_cases h : c.GetCellType = VTK_LINE
    · simp only [lineIndices, if_pos h, List.mem_cons] at hv
      rcases hv with hv | hv
      · omega
      · exact ih (i + 1) v hv
    · simp only [lineIndices, if_neg h] at hv
      exact ih (i + 1) v hv

theorem lineIndices_lower (cells : List vtkCell) :
    ∀ i, i + cells.length ≤ 2147483648 → ∀ v ∈ lineIndices cells i, i * 2 ≤ v := by
  induction cells with
  | nil => intro i _ v hv; simp [lineIndices] at hv
  | cons c rest ih =>
    intro i hi v hv
    have hi1 : i + 1 + rest.length ≤ 2147483648 := by
      simp only [List.length_cons] at hi; omega
    by_cases h : c.GetCellType = VTK_LINE
    · simp only [lineIndices, if_pos h, List.mem_cons] at hv
      rcases hv with hv | hv
      · simp only [List.length_cons] at hi; omega
      · have := ih (i + 1) hi1 v hv
        omega
    · simp only [lineIndices, if_neg h] at hv
      have := ih (i + 1) hi1 v hv
      omega

theorem lineIndices_increasing (cells : List vtkCell) :
    ∀ i, i + cells.length ≤ 2147483648 →
      (lineIndices cells i).Pairwise (fun a b => a < b) := by
  induction cells with
  | nil => intro i _; simp [lineIndices]
  | cons c rest ih =>
    intro i hi
    have hi1 : i + 1 + rest.length ≤ 2147483648 := by
      simp only [List.length_cons] at hi; omega
    by_cases h : c.GetCellType = VTK_LINE
    · simp only [lineIndices, if_pos h, List.pairwise_cons]
      refine ⟨?_, ih (i + 1) hi1⟩
      intro v hv
      have := lineIndices_lower rest (i + 1) hi1 v hv
      simp only [List.length_cons] at hi
      omega
    · simp only [lineIndices, if_neg h]
      exact ih (i + 1) hi1

theorem lineIndices_all_lines (cells : List vtkCell)
    (hall : ∀ c ∈ cells, c.GetCellType = VTK_LINE) :
    ∀ i, i + cells.length ≤ 2147483648 →
      lineIndices cells i = (List.range cells.length).map (fun k => 2 * (i + k)) := by
  induction cells with
  | nil => intro i _; simp [lineIndices]
  | cons c rest ih =>
    intro i hi
    have hc : c.GetCellType = VTK_LINE := hall c (List.mem_cons_self _ _)
    have hrest : ∀ c ∈ rest, c.GetCellType = VTK_LINE :=
      fun c hc => hall c (List.mem_cons_of_mem _ hc)
    simp only [List.length_cons] at hi
    have hmod : i * 2 % 4294967296 = 2 * i := by omega
    simp only [lineIndices, if_pos hc, List.length_cons, List.range_succ_eq_map, List.map_cons,
      List.map_map, hmod, Nat.add_zero]
    rw [ih hrest (i + 1) (by omega)]
    congr 1
    apply List.map_congr_left
    intro k _
    simp only [Function.comp]
    omega

/-- On a mesh whose cells are all line cells (at most 2^31 of them, the range
of `int`), the index array of v240 is `[0, 2, 4, ...]`: entry `k` is `2 * k`. -/
theorem extract240_indices_all_lines {F : Type} (d : vtkDataSet F)
    (geo : List (vec3f F) × List Nat) (hgeo : extract240 d = some geo)
    (hall : ∀ c ∈ d.cells, c.GetCellType = VTK_LINE) (hlen : d.cells.length ≤ 2147483648) :
    geo.2 = (List.range d.cells.length).map (fun k => 2 * k) := by
  rw [extract240_eq] at hgeo
  cases hes : lineEdges d.vertices d.cells with
  | none => simp [hes] at hgeo
  | some es =>
    simp only [hes, Option.map_some', Option.some.injEq] at hgeo
    rw [← hgeo]
    show lineIndices d.cells 0 = _
    rw [lineIndices_all_lines d.cells hall 0 (by omega)]
    simp

/-- On every mesh with at most 2^31 cells the index array of v240 is strictly
increasing and all its values are even. -/
theorem extract240_indices_increasing_even {F : Type} (d : vtkDataSet F)
    (geo : List (vec3f F) × List Nat) (hgeo : extract240 d = some geo)
    (hlen : d.cells.length ≤ 2147483648) :
    geo.2.Pairwise (fun a b => a < b) ∧ ∀ v ∈ geo.2, v % 2 = 0 := by
  rw [extract240_eq] at hgeo
  cases hes : lineEdges d.vertices d.cells with
  | none => simp [hes] at hgeo
  | some es =>
    simp only [hes, Option.map_some', Option.some.injEq] at hgeo
    rw [← hgeo]
    exact ⟨lineIndices_increasing d.cells 0 (by omega), lineIndices_even d.cells 0⟩

/-- The sizes of the buffers of a defined extraction: two vertices and one
index entry per line cell. -/
theorem extract240_sizes {F : Type} (d : vtkDataSet F) (geo : List (vec3f F) × List Nat)
    (hgeo : extract240 d = some geo) :
    geo.1.length = 2 * (d.cells.filter isLine).length ∧
    geo.2.length = (d.cells.filter isLine).length := by
  rw [extract240_eq] at hgeo
  cases hes : lineEdges d.vertices d.cells with
  | none => simp [hes] at hgeo
  | some es =>
    simp only [hes, Option.map_some', Option.some.injEq] at hgeo
    rw [← hgeo]
    constructor
    · show (es.flatMap fun e => [e.1, e.2]).length = _
      rw [length_flatMap_const (fun e : vec3f F × vec3f F => [e.1, e.2]) 2 (fun _ => rfl),
        lineEdges_length _ _ es hes]
      omega
    · exact lineIndices_length d.cells 0

/-- The size of the float buffer of a defined v185 extraction: six floats per
line cell. -/
theorem extract185_sizes {F : Type} (d : vtkDataSet F) (ov : List F)
    (hov : extract185 d = some ov) :
    ov.length = 6 * (d.cells.filter isLine).length := by
  rw [extract185_eq] at hov
  cases hes : lineEdges d.vertices d.cells with
  | none => simp [hes] at hov
  | some es =>
    simp only [hes, Option.map_some', Option.some.injEq] at hov
    rw [← hov, length_flatMap_const sixFloats 6 (fun _ => rfl), lineEdges_length _ _ es hes]
    omega

/-! ## Completed runs -/

theorem firstFrameCall_eq (env : Env) :
    firstFrameCall env = some (ppmOutcome (env.fopen "firstFrame.ppm")
      (env.errno "firstFrame.ppm") "firstFrame.ppm" 1024 768 (env.frame 1)) :=
  writePPM_1024_768 _ _ _ _

theorem accumulatedFrameCall_eq (env : Env) :
    accumulatedFrameCall env = some (ppmOutcome (env.fopen "accumulatedFrame.ppm")
      (env.errno "accumulatedFrame.ppm") "accumulatedFrame.ppm" 1024 768 (env.frame 11)) :=
  writePPM_1024_768 _ _ _ _

/-- A v240 run with two arguments, a defined extraction and a successful
`ospInit` completes: both `writePPM` calls are defined, `main` returns 0 and
the trace is `trace240`. -/
theorem main240_completes {F : Type} (env : Env) (argv : List String) (d : vtkDataSet F)
    (geo : List (vec3f F) × List Nat)
    (hargs : argv.length = 3) (hinit : env.ospInit = 0) (hgeo : extract240 d = some geo) :
    ∃ o1 o2 r, firstFrameCall env = some o1 ∧ accumulatedFrameCall env = some o2 ∧
      main240 env argv d = some r ∧ r.exit = 0 ∧ r.trace = trace240 env argv d geo ∧
      renderLog r.trace = renderSequence pass240 o1 o2 ∧ passes r.trace = 11 ∧
      vertexBuffers r.trace = [geo.1] ∧ indexBuffers r.trace = [geo.2] ∧
      filesWritten r.trace =
        filesWritten [(.writePPM "firstFrame.ppm" o1 : Event F)] ++
        filesWritten [(.writePPM "accumulatedFrame.ppm" o2 : Event F)] :=
  ⟨_, _, _, firstFrameCall_eq env, accumulatedFrameCall_eq env,
    main240_run env argv d geo hargs hinit hgeo, rfl, rfl,
    renderLog_trace240 env argv d geo, passes_trace240 env argv d geo,
    (buffers_trace240 env argv d geo).1, (buffers_trace240 env argv d geo).2,
    files_trace240 env argv d geo⟩

/-- A v185 run with two arguments, a defined extraction and a successful
`ospInit` completes. -/
theorem main185_completes {F : Type} (env : Env) (argv : List String) (d : vtkDataSet F)
    (ov : List F)
    (hargs : argv.length = 3) (hinit : env.ospInit = 0) (hov : extract185 d = some ov) :
    ∃ o1 o2 r, firstFrameCall env = some o1 ∧ accumulatedFrameCall env = some o2 ∧
      main185 env argv d = some r ∧ r.exit = 0 ∧ r.trace = trace185 env argv d ov ∧
      renderLog r.trace = renderSequence pass185 o1 o2 ∧ passes r.trace = 11 ∧
      floatBuffers r.trace = [ov] :=
  ⟨_, _, _, firstFrameCall_eq env, accumulatedFrameCall_eq env,
    main185_run env argv d ov hargs hinit hov, rfl, rfl,
    renderLog_trace185 env argv d ov, passes_trace185 env argv d ov,
    buffers_trace185 env argv d ov⟩

/-! ## Geometry buffer and index array (C1, C10) -/

/-- C1 (code defect): whenever extraction is defined the vertex buffer holds
two vertices per line cell (six floats in v185) and the index array one entry
per line cell, but the entry pushed is twice the CELL number, not twice the
edge position: for a polyline cell followed by the line cell (0, 1) the single
edge gets index 2, where the spec's builder gives index 0, and that array is
what the backend receives. -/
theorem index_entry_is_twice_cell_number :
    (∀ (F : Type) (d : vtkDataSet F) (geo : List (vec3f F) × List Nat),
      extract240 d = some geo →
        geo.1.length = 2 * (d.cells.filter isLine).length ∧
        geo.2.length = (d.cells.filter isLine).length) ∧
    (∀ (F : Type) (d : vtkDataSet F) (ov : List F),
      extract185 d = some ov → ov.length = 6 * (d.cells.filter isLine).length) ∧
    extract240 mixedMesh = some ([pt 0, pt 1], [2]) ∧
    specGeometryBuilder (edgesOf [pt 0, pt 1]) = .ok ([pt 0, pt 1], [0]) ∧
    (∃ r, main240 sampleEnv sampleArgv mixedMesh = some r ∧
      vertexBuffers r.trace = [[pt 0, pt 1]] ∧ indexBuffers r.trace = [[2]]) := by
  have hgeo : extract240 mixedMesh = some ([pt 0, pt 1], [2]) := by decide
  refine ⟨fun F d geo h => extract240_sizes d geo h, fun F d ov h => extract185_sizes d ov h,
    hgeo, by rfl, ?_⟩
  obtain ⟨_, _, r, _, _, hr, _, _, _, _, hv, hi, _⟩ :=
    main240_completes sampleEnv sampleArgv mixedMesh _ rfl rfl hgeo
  exact ⟨r, hr, hv, hi⟩

/-- C10 (code defect): for two vertex cells followed by the line cells (0, 1)
and (1, 2) the vertex buffer has 4 entries and the index array is [4, 6]: the
values are increasing and even, but neither lies in [0, len(buffer) - 2], so
neither addresses a vertex pair of the buffer. -/
theorem index_outside_buffer_on_mixed_mesh :
    ∃ geo, extract240 vertsAndLines = some geo ∧
      geo = ([pt 0, pt 1, pt 1, pt 2], [4, 6]) ∧
      (∀ v ∈ geo.2, ¬ v ≤ geo.1.length - 2) ∧
      ∃ r, main240 sampleEnv sampleArgv vertsAndLines = some r ∧
        vertexBuffers r.trace = [geo.1] ∧ indexBuffers r.trace = [geo.2] := by
  have hgeo : extract240 vertsAndLines = some ([pt 0, pt 1, pt 1, pt 2], [4, 6]) := by decide
  refine ⟨_, hgeo, rfl, by decide, ?_⟩
  obtain ⟨_, _, r, _, _, hr, _, _, _, _, hv, hi, _⟩ :=
    main240_completes sampleEnv sampleArgv vertsAndLines _ rfl rfl hgeo
  exact ⟨r, hr, hv, hi⟩

/-! ## Edge extraction (C2, C3) -/

/-- C4 (counterexample): on the mesh with 0 points and 0 cells the spec's
builder fails with `EmptyGeometry`, but the program hands an empty vertex
buffer and an empty index array to the backend, issues 11 render passes,
writes both files and returns 0. -/
theorem empty_mesh_is_rendered :
    extract240 emptyMesh = some ([], []) ∧
    specGeometryBuilder (edgesOf ([] : List (vec3f Int))) = .error .EmptyGeometry ∧
    ∃ r, main240 sampleEnv sampleArgv emptyMesh = some r ∧ r.exit = 0 ∧
      vertexBuffers r.trace = [[]] ∧ indexBuffers r.trace = [[]] ∧ passes r.trace = 11 ∧
      (filesWritten r.trace).map Prod.fst = ["firstFrame.ppm", "accumulatedFrame.ppm"] := by
  have hgeo : extract240 emptyMesh = some ([], []) := by decide
  refine ⟨hgeo, by rfl, ?_⟩
  obtain ⟨o1, o2, r, h1, h2, hr, he, _, _, hp, hv, hi, hf⟩ :=
    main240_completes sampleEnv sampleArgv emptyMesh _ rfl rfl hgeo
  refine ⟨r, hr, he, hv, hi, hp, ?_⟩
  rw [firstFrameCall_eq] at h1
  rw [accumulatedFrameCall_eq] at h2
  rw [hf, ← Option.some.inj h1, ← Option.some.inj h2]
  simp [filesWritten, ppmOutcome, sampleEnv]

/-- C4 (amended): for every mesh without a line cell (in particular the mesh
with 0 points and 0 cells) the program does not fail: with two arguments and a
successful `ospInit` it hands an empty vertex buffer (v240: and an empty index
array; v185: an empty float buffer) to the backend, issues all 11 render
passes, calls `writePPM` for both checkpoints and returns 0. -/
theorem no_edges_run_completes (F : Type) (env : Env) (argv : List String) (d : vtkDataSet F)
    (hargs : argv.length = 3) (hinit : env.ospInit = 0)
    (hnone : ∀ c ∈ d.cells, c.GetCellType ≠ VTK_LINE) :
    ∃ o1 o2 r240 r185,
      firstFrameCall env = some o1 ∧ accumulatedFrameCall env = some o2 ∧
      main240 env argv d = some r240 ∧ r240.exit = 0 ∧
      vertexBuffers r240.trace = [[]] ∧ indexBuffers r240.trace = [[]] ∧
      renderLog r240.trace = renderSequence pass240 o1 o2 ∧
      main185 env argv d = some r185 ∧ r185.exit = 0 ∧
      floatBuffers r185.trace = [[]] ∧
      renderLog r185.trace = renderSequence pass185 o1 o2 := by
  have hin : readsInside d = true := by
    unfold readsInside
    rw [List.all_eq_true]
    intro c hc
    simp [isLine, hnone c hc]
  obtain ⟨es, hes, h240, h185⟩ := extract_defined d hin
  have hlen := lineEdges_length d.vertices d.cells es hes
  have hf : d.cells.filter isLine = [] := by
    rw [List.filter_eq_nil_iff]
    intro c hc
    simp [isLine, hnone c hc]
  rw [hf, List.length_nil] at hlen
  have hesnil : es = [] := List.length_eq_zero.mp hlen
  have hind : lineIndices d.cells 0 = [] := by
    apply List.length_eq_zero.mp
    rw [lineIndices_length, hf]
    rfl
  subst hesnil
  rw [hind] at h240
  obtain ⟨o1, o2, r240, h1, h2, hr, he, _, hl, _, hv, hi, _⟩ :=
    main240_completes env argv d _ hargs hinit h240
  obtain ⟨o1', o2', r185, h1', h2', hr', he', _, hl', _, hb⟩ :=
    main185_completes env argv d _ hargs hinit h185
  have e1 : o1' = o1 := Option.some.inj (h1'.symm.trans h1)
  have e2 : o2' = o2 := Option.some.inj (h2'.symm.trans h2)
  subst e1 e2
  exact ⟨_, _, r240, r185, h1, h2, hr, he, hv, hi, hl, hr', he', hb, hl'⟩

/-- C4 (witness): the amended statement at the mesh with 0 points and 0 cells. -/
theorem no_edges_run_completes_witness :
    sampleArgv.length = 3 ∧ sampleEnv.ospInit = 0 ∧
    (∀ c ∈ emptyMesh.cells, c.GetCellType ≠ VTK_LINE) ∧
    ∃ o1 o2 r240 r185,
      firstFrameCall sampleEnv = some o1 ∧ accumulatedFrameCall sampleEnv = some o2 ∧
      main240 sampleEnv sampleArgv emptyMesh = some r240 ∧ r240.exit = 0 ∧
      vertexBuffers r240.trace = [[]] ∧ indexBuffers r240.trace = [[]] ∧
      renderLog r240.trace = renderSequence pass240 o1 o2 ∧
      main185 sampleEnv sampleArgv emptyMesh = some r185 ∧ r185.exit = 0 ∧
      floatBuffers r185.trace = [[]] ∧
      renderLog r185.trace = renderSequence pass185 o1 o2 :=
  ⟨by decide, by decide, by simp [emptyMesh],
   no_edges_run_completes Int sampleEnv sampleArgv emptyMesh
     (by decide) (by decide) (by simp [emptyMesh])⟩

/-! ## The image writer (C5, C6) -/

/-- C5 (counterexample): for a 1 x 1 image the file is the header, the three
pixel bytes and then one more byte, a newline; it is not the header followed
by exactly 1 * 1 * 3 bytes and nothing else.  And for W = 2^30, H = 1 the
product `3 * size_x` leaves the range of `int`: the call has no defined
output. -/
theorem ppm_has_trailing_newline :
    writePPM true 0 "firstFrame.ppm" 1 1 (fun i => i) =
      some ⟨none, some (ppmHeader 1 1 ++ [0, 1, 2] ++ [10])⟩ ∧
    (¬ ∃ body : List Nat, body.length = 1 * 1 * 3 ∧
      writePPM true 0 "firstFrame.ppm" 1 1 (fun i => i) =
        some ⟨none, some (ppmHeader 1 1 ++ body)⟩) ∧
    writePPM true 0 "firstFrame.ppm" 1073741824 1 (fun i => i) = none := by
  have h1 : writePPM true 0 "firstFrame.ppm" 1 1 (fun i => i) =
      some ⟨none, some (ppmHeader 1 1 ++ [0, 1, 2] ++ [10])⟩ := by decide
  refine ⟨h1, ?_, by decide⟩
  rintro ⟨body, hlen, h⟩
  rw [h1] at h
  have h2 := congrArg (fun o : Option PPMOutcome => (o.bind PPMOutcome.file).map List.length) h
  simp only [Option.some_bind, Option.map_some', Option.some.injEq, List.length_append,
    List.length_cons, List.length_nil] at h2
  omega

/-- C5 (amended): for every width W and height H in the range where the `int`
arithmetic of `writePPM` is defined (4*W, H and W*H at most 2^31 - 1), when
the file opens the bytes `writePPM` writes are the header `P6\n<W> <H>\n255\n`
(decimal), followed by exactly W*H*3 pixel bytes, followed by one closing
newline byte and nothing else. -/
theorem writePPM_file_layout (errno : Int) (fileName : String) (W H : Nat) (pixel : Nat → Nat)
    (hW : 4 * W ≤ 2147483647) (hH : H ≤ 2147483647) (hWH : W * H ≤ 2147483647) :
    ∃ body, writePPM true errno fileName W H pixel =
        some ⟨none, some (ppmHeader W H ++ body ++ [10])⟩ ∧
      body.length = W * H * 3 ∧
      ppmHeader W H =
        ("P6\n" ++ toString W ++ " " ++ toString H ++ "\n255\n").toList.map Char.toNat :=
  ⟨bodyBytes W H pixel, writePPM_eq true errno fileName W H pixel hW hH hWH,
    bodyBytes_length W H pixel, rfl⟩

/-- C5 (witness): the layout of a 2 x 3 image. -/
theorem writePPM_file_layout_witness :
    4 * 2 ≤ 2147483647 ∧ 3 ≤ 2147483647 ∧ 2 * 3 ≤ 2147483647 ∧
    ∃ body, writePPM true 0 "firstFrame.ppm" (2 : Nat) (3 : Nat) (fun i => i) =
        some ⟨none, some (ppmHeader (2 : Nat) (3 : Nat) ++ body ++ [10])⟩ ∧
      body.length = 2 * 3 * 3 ∧
      ppmHeader (2 : Nat) (3 : Nat) =
        ("P6\n" ++ toString 2 ++ " " ++ toString 3 ++ "\n255\n").toList.map Char.toNat :=
  ⟨by decide, by decide, by decide,
   writePPM_file_layout 0 "firstFrame.ppm" 2 3 (fun i => i) (by decide) (by decide) (by decide)⟩

/-- C6 (counterexample): for W = 65536, H = 32769 the index of the first
output row, `(size_y - 1 - 0) * size_x` = 2^31, leaves the range of `int`:
the row, and with it the whole call, has no defined output. -/
theorem row_index_overflows_int :
    int32 ((32769 - 1 - 0) * 65536) = none ∧
    ppmRow 65536 32769 (fun i => i) 0 = none ∧
    writePPM true 0 "firstFrame.ppm" 65536 32769 (fun i => i) = none := by
  have hrow : ppmRow 65536 32769 (fun i => i) ((0 : Nat) : Int) = none := by decide
  refine ⟨by decide, hrow, ?_⟩
  have hbody : ppmBody 65536 32769 (fun i => i) = none := by
    unfold ppmBody
    rw [int32_some (3 * 65536) (by norm_num) (by norm_num)]
    simp only [Option.some_bind]
    rw [if_neg (by norm_num)]
    rw [collect_map_none _ _ 0 (List.mem_range.mpr (by norm_num)) hrow]
    rfl
  simp [writePPM, ppmFile, hbody]

/-- C6 (amended): for every W and H in the range where the `int` arithmetic of
`writePPM` is defined (4*W, H and W*H at most 2^31 - 1), the pixel data is
row-flipped and alpha-dropped: for every output row `y < H`, column `x < W` and
channel `c < 3`, the byte at offset `3*(y*W + x) + c` after the header is byte
`c` (red, green, blue) of input pixel `(H-1-y)*W + x`; output row 0 is input
row `H-1`. -/
theorem writePPM_row_flip (errno : Int) (fileName : String) (W H : Nat) (pixel : Nat → Nat)
    (y x c : Nat)
    (hW : 4 * W ≤ 2147483647) (hH : H ≤ 2147483647) (hWH : W * H ≤ 2147483647)
    (hy : y < H) (hx : x < W) (hc : c < 3) :
    ∃ bytes, writePPM true errno fileName W H pixel = some ⟨none, some bytes⟩ ∧
      bytes[(ppmHeader W H).length + (3 * (y * W + x) + c)]? =
        some (pixel (4 * ((H - 1 - y) * W + x) + c)) := by
  refine ⟨_, writePPM_eq true errno fileName W H pixel hW hH hWH, ?_⟩
  rw [List.append_assoc, List.getElem?_append_right (Nat.le_add_right _ _),
    Nat.add_sub_cancel_left]
  have hlt : 3 * (y * W + x) + c < (bodyBytes W H pixel).length := by
    rw [bodyBytes_length]
    have h1 : y * W + x < W * H := by
      calc y * W + x < y * W + W := by omega
        _ = (y + 1) * W := by ring
        _ ≤ H * W := Nat.mul_le_mul_right W hy
        _ = W * H := by ring
    omega
  rw [List.getElem?_append_left hlt]
  exact bodyBytes_getElem? W H pixel y x c hy hx hc

/-- C6 (witness): output row 0, column 1, blue channel of a 2 x 2 image is
byte 2 of input pixel 3 (row 1, column 1). -/
theorem writePPM_row_flip_witness :
    4 * 2 ≤ 2147483647 ∧ 2 ≤ 2147483647 ∧ 2 * 2 ≤ 2147483647 ∧ 0 < 2 ∧ 1 < 2 ∧ 2 < 3 ∧
    ∃ bytes, writePPM true 0 "firstFrame.ppm" (2 : Nat) (2 : Nat) (fun i => i) =
        some ⟨none, some bytes⟩ ∧
      bytes[(ppmHeader (2 : Nat) (2 : Nat)).length + (3 * (0 * 2 + 1) + 2)]? =
        some ((fun i => i) (4 * ((2 - 1 - 0) * 2 + 1) + 2)) :=
  ⟨by decide, by decide, by decide, by decide, by decide, by decide,
   writePPM_row_flip 0 "firstFrame.ppm" 2 2 (fun i => i) 0 1 2
     (by decide) (by decide) (by decide) (by decide) (by decide) (by decide)⟩

/-! ## The run: open failure, render loop, renderer choice (C7, C8, C9) -/

/-- C7: if `fopen` fails for the first checkpoint, `writePPM` prints the
`fopen(...) failed` line with the file name and `errno`, writes no byte and
returns; the run goes on: the ten further render passes are issued, `writePPM`
is called for the second checkpoint with its own `fopen` result, the only
file that can exist afterwards is the second one, and `main` returns 0.
(The run is one that reaches the render loop: two arguments, every read of
the cell loop inside the point array, `ospInit` successful.) -/
theorem open_failure_not_fatal (F : Type) (env : Env) (argv : List String) (d : vtkDataSet F)
    (hargs : argv.length = 3) (hinit : env.ospInit = 0) (hin : readsInside d = true)
    (hfail : env.fopen "firstFrame.ppm" = false) :
    ∃ o2 r,
      firstFrameCall env =
        some ⟨some ("fopen('" ++ "firstFrame.ppm" ++ "', 'wb') failed: " ++
          toString (env.errno "firstFrame.ppm")), none⟩ ∧
      accumulatedFrameCall env = some o2 ∧
      main240 env argv d = some r ∧ r.exit = 0 ∧
      renderLog r.trace =
        [pass240,
         .writePPM "firstFrame.ppm"
           ⟨some ("fopen('" ++ "firstFrame.ppm" ++ "', 'wb') failed: " ++
              toString (env.errno "firstFrame.ppm")), none⟩] ++
        List.replicate 10 pass240 ++
        [.writePPM "accumulatedFrame.ppm" o2] ∧
      passes r.trace = 11 ∧
      filesWritten r.trace = filesWritten [(.writePPM "accumulatedFrame.ppm" o2 : Event F)] := by
  obtain ⟨es, _, h240, _⟩ := extract_defined d hin
  obtain ⟨o1, o2, r, h1, h2, hr, he, _, hl, hp, _, _, hf⟩ :=
    main240_completes env argv d _ hargs hinit h240
  have ho1 : o1 = ⟨some ("fopen('" ++ "firstFrame.ppm" ++ "', 'wb') failed: " ++
      toString (env.errno "firstFrame.ppm")), none⟩ := by
    have h := h1
    simp only [firstFrameCall, writePPM, hfail, Bool.false_eq_true, if_false,
      Option.some.injEq] at h
    exact h.symm
  subst ho1
  refine ⟨o2, r, h1, h2, hr, he, hl, hp, ?_⟩
  rw [hf]
  rfl

/-- C7 (witness): a run in which every `fopen` fails with `errno` 13. -/
theorem open_failure_not_fatal_witness :
    sampleArgv.length = 3 ∧ readOnlyEnv.ospInit = 0 ∧ readsInside twoLines = true ∧
    readOnlyEnv.fopen "firstFrame.ppm" = false ∧
    ∃ o2 r,
      firstFrameCall readOnlyEnv =
        some ⟨some ("fopen('" ++ "firstFrame.ppm" ++ "', 'wb') failed: " ++
          toString (readOnlyEnv.errno "firstFrame.ppm")), none⟩ ∧
      accumulatedFrameCall readOnlyEnv = some o2 ∧
      main240 readOnlyEnv sampleArgv twoLines = some r ∧ r.exit = 0 ∧
      renderLog r.trace =
        [pass240,
         .writePPM "firstFrame.ppm"
           ⟨some ("fopen('" ++ "firstFrame.ppm" ++ "', 'wb') failed: " ++
              toString (readOnlyEnv.errno "firstFrame.ppm")), none⟩] ++
        List.replicate 10 pass240 ++
        [.writePPM "accumulatedFrame.ppm" o2] ∧
      passes r.trace = 11 ∧
      filesWritten r.trace =
        filesWritten [(.writePPM "accumulatedFrame.ppm" o2 : Event Int)] :=
  ⟨by decide, by decide, by decide, by decide,
   open_failure_not_fatal Int readOnlyEnv sampleArgv twoLines
     (by decide) (by decide) (by decide) (by decide)⟩

/-- C8: on every run that reaches the render loop (two arguments, every read
of the cell loop inside the point array, `ospInit` successful), the render
passes and `writePPM` calls are, in order: one pass, `writePPM` of
`firstFrame.ppm` on the buffer after 1 pass, ten passes with no write in
between, `writePPM` of `accumulatedFrame.ppm` on the buffer after 11 passes;
11 passes in all and no other image, in v240 and in v185. -/
theorem render_loop_sequence (F : Type) (env : Env) (argv : List String) (d : vtkDataSet F)
    (hargs : argv.length = 3) (hinit : env.ospInit = 0) (hin : readsInside d = true) :
    ∃ o1 o2 r240 r185,
      firstFrameCall env = some o1 ∧ accumulatedFrameCall env = some o2 ∧
      main240 env argv d = some r240 ∧
      renderLog r240.trace =
        [pass240, .writePPM "firstFrame.ppm" o1] ++ List.replicate 10 pass240 ++
          [.writePPM "accumulatedFrame.ppm" o2] ∧
      passes r240.trace = 11 ∧
      main185 env argv d = some r185 ∧
      renderLog r185.trace =
        [pass185, .writePPM "firstFrame.ppm" o1] ++ List.replicate 10 pass185 ++
          [.writePPM "accumulatedFrame.ppm" o2] ∧
      passes r185.trace = 11 := by
  obtain ⟨es, _, h240, h185⟩ := extract_defined d hin
  obtain ⟨o1, o2, r240, h1, h2, hr, _, _, hl, hp, _, _, _⟩ :=
    main240_completes env argv d _ hargs hinit h240
  obtain ⟨o1', o2', r185, h1', h2', hr', _, _, hl', hp', _⟩ :=
    main185_completes env argv d _ hargs hinit h185
  have e1 : o1' = o1 := Option.some.inj (h1'.symm.trans h1)
  have e2 : o2' = o2 := Option.some.inj (h2'.symm.trans h2)
  subst e1 e2
  exact ⟨_, _, r240, r185, h1, h2, hr, hl, hp, hr', hl', hp'⟩

/-- C8 (witness): the render sequence of a run on four points and two line cells. -/
theorem render_loop_sequence_witness :
    sampleArgv.length = 3 ∧ sampleEnv.ospInit = 0 ∧ readsInside twoLines = true ∧
    ∃ o1 o2 r240 r185,
      firstFrameCall sampleEnv = some o1 ∧ accumulatedFrameCall sampleEnv = some o2 ∧
      main240 sampleEnv sampleArgv twoLines = some r240 ∧
      renderLog r240.trace =
        [pass240, .writePPM "firstFrame.ppm" o1] ++ List.replicate 10 pass240 ++
          [.writePPM "accumulatedFrame.ppm" o2] ∧
      passes r240.trace = 11 ∧
      main185 sampleEnv sampleArgv twoLines = some r185 ∧
      renderLog r185.trace =
        [pass185, .writePPM "firstFrame.ppm" o1] ++ List.replicate 10 pass185 ++
          [.writePPM "accumulatedFrame.ppm" o2] ∧
      passes r185.trace = 11 :=
  ⟨by decide, by decide, by decide,
   render_loop_sequence Int sampleEnv sampleArgv twoLines (by decide) (by decide) (by decide)⟩

/-- C9: on every run with two positional arguments that reaches the backend
(every read of the cell loop inside the point array, `ospInit` successful),
exactly one renderer is created; its type is `scivis` if and only if the first
argument is exactly `-RC`, and `pathtracer` for every other string; in v240
the one material is created for the same type. -/
theorem renderer_selected_by_flag (F : Type) (env : Env) (prog s path : String)
    (d : vtkDataSet F) (hinit : env.ospInit = 0) (hin : readsInside d = true) :
    ∃ r240 r185,
      main240 env [prog, s, path] d = some r240 ∧
      main185 env [prog, s, path] d = some r185 ∧
      renderersCreated r240.trace = [if s = "-RC" then "scivis" else "pathtracer"] ∧
      materialsCreated r240.trace = [if s = "-RC" then "scivis" else "pathtracer"] ∧
      renderersCreated r185.trace = [if s = "-RC" then "scivis" else "pathtracer"] ∧
      (renderersCreated r240.trace = ["scivis"] ↔ s = "-RC") ∧
      (renderersCreated r185.trace = ["scivis"] ↔ s = "-RC") := by
  obtain ⟨es, _, h240, h185⟩ := extract_defined d hin
  have hr240 := main240_run env [prog, s, path] d _ rfl hinit h240
  have hr185 := main185_run env [prog, s, path] d _ rfl hinit h185
  have h1 := renderers_trace240 env [prog, s, path] d
    (es.flatMap (fun e => [e.1, e.2]), lineIndices d.cells 0)
  have h2 := renderers_trace185 env [prog, s, path] d (es.flatMap sixFloats)
  have hs : ([prog, s, path] : List String).getD 1 "" = s := rfl
  rw [hs, rendererName_flag] at h1 h2
  refine ⟨_, _, hr240, hr185, h1.1, h1.2, h2, ?_, ?_⟩
  · show renderersCreated (trace240 _ _ _ _) = _ ↔ _
    rw [h1.1]
    by_cases h : s = "-RC" <;> simp [h]
  · show renderersCreated (trace185 _ _ _ _) = _ ↔ _
    rw [h2]
    by_cases h : s = "-RC" <;> simp [h]

/-- C9 (witness): the flag `-RC` on a run whose `ospInit` succeeds. -/
theorem renderer_selected_by_flag_witness :
    sampleEnv.ospInit = 0 ∧ readsInside twoLines = true ∧
    ∃ r240 r185,
      main240 sampleEnv ["viewEdges", "-RC", "edges.vtp"] twoLines = some r240 ∧
      main185 sampleEnv ["viewEdges", "-RC", "edges.vtp"] twoLines = some r185 ∧
      renderersCreated r240.trace = [if "-RC" = "-RC" then "scivis" else "pathtracer"] ∧
      materialsCreated r240.trace = [if "-RC" = "-RC" then "scivis" else "pathtracer"] ∧
      renderersCreated r185.trace = [if "-RC" = "-RC" then "scivis" else "pathtracer"] ∧
      (renderersCreated r240.trace = ["scivis"] ↔ "-RC" = "-RC") ∧
      (renderersCreated r185.trace = ["scivis"] ↔ "-RC" = "-RC") :=
  ⟨by decide, by decide,
   renderer_selected_by_flag Int sampleEnv "viewEdges" "-RC" "edges.vtp" twoLines
     (by decide) (by decide)⟩

end ViewEdges
